import Mathlib

/-!
Shallow embedding of the event-loop core of `open-coroutine-core`
(`src/open-coroutine-core/src/event_loop/mod.rs` and `join.rs`).

File descriptors (`libc::c_int`) are modelled as `Int`, tokens (`usize`)
as `Nat`.  The global registries `READABLE_RECORDS` (a `HashSet`),
`READABLE_TOKEN_RECORDS` (a `HashMap`), and their write-side analogues
are modelled as association structures over lists.  The external
collaborators (selector, scheduler, timer) are modelled through their
contracts from the spec: selector calls may be made to fail through an
explicit fault record, scheduler hooks are passed in as parameters, and
their invocations are logged so that "the code did not touch X" claims
are statable.  Rust `assert!` failures are modelled as an explicit
`assertFail` error outcome.
-/

/-- Membership test of a `HashSet<c_int>` modelled as a list. -/
def setContains (s : List Int) (x : Int) : Bool :=
  s.contains x

/-- `HashSet::insert`: returns the new set and whether the value was
freshly inserted (Rust returns `true` on fresh insertion). -/
def setInsert (s : List Int) (x : Int) : List Int × Bool :=
  if s.contains x then (s, false) else (x :: s, true)

/-- `HashSet::remove`: returns the new set and whether the value was
present. -/
def setRemove (s : List Int) (x : Int) : List Int × Bool :=
  (s.filter (fun y => y ≠ x), s.contains x)

/-- `HashMap::get`-style lookup of a `HashMap<c_int, usize>` modelled as an
association list. -/
def mapLookup (m : List (Int × Nat)) (k : Int) : Option Nat :=
  match m with
  | [] => none
  | (k₀, v₀) :: rest => if k₀ = k then some v₀ else mapLookup rest k

/-- `HashMap::contains_key`. -/
def mapContainsKey (m : List (Int × Nat)) (k : Int) : Bool :=
  (mapLookup m k).isSome

/-- `HashMap::insert`: returns the new map and the previous value for the
key (`None` when the key was absent). -/
def mapInsert (m : List (Int × Nat)) (k : Int) (v : Nat) :
    List (Int × Nat) × Option Nat :=
  ((k, v) :: m.filter (fun p => p.1 ≠ k), mapLookup m k)

/-- `HashMap::remove`: returns the new map and the removed value. -/
def mapRemove (m : List (Int × Nat)) (k : Int) :
    List (Int × Nat) × Option Nat :=
  (m.filter (fun p => p.1 ≠ k), mapLookup m k)

/-- The interest passed to selector registration calls
(`Interest::READABLE` / `Interest::WRITABLE`; the code never registers a
combined interest directly). -/
inductive InterestK where
  | readable
  | writable
deriving DecidableEq, Repr

/-- Errors surfaced by the embedded operations: `ioErr` stands for an
`std::io::Error` propagated from the selector, `assertFail` for a Rust
`assert!`/`assert_eq!` failure (a panic). -/
inductive EvErr where
  | ioErr
  | assertFail
deriving DecidableEq, Repr

/-- State of the external selector: its registration table
(fd ↦ token, interest) plus counters of how often each operation was
invoked, so that "without touching the selector" is statable. -/
structure SelectorState where
  registrations : List (Int × Nat × InterestK)
  registerCalls : Nat
  reregisterCalls : Nat
  deregisterCalls : Nat
deriving DecidableEq, Repr

/-- Fault injection for the external selector: the spec treats the
selector as an external collaborator whose operations return
`io::Result`; a set flag makes the corresponding call fail. -/
structure SelFaults where
  registerFails : Bool
  reregisterFails : Bool
  deregisterFails : Bool
deriving DecidableEq, Repr

/-- No injected selector faults. -/
def SelFaults.none : SelFaults := ⟨false, false, false⟩

/-- Selector registration lookup (what `(token, interest)` the selector
currently holds for a fd). -/
def selLookup (s : SelectorState) (fd : Int) : Option (Nat × InterestK) :=
  (s.registrations.find? (fun p => p.1 = fd)).map (fun p => p.2)

/-- `Selector::register(fd, token, interest)`. -/
def selRegister (f : SelFaults) (s : SelectorState) (fd : Int) (tok : Nat)
    (i : InterestK) : Except EvErr SelectorState :=
  if f.registerFails then .error .ioErr
  else .ok { s with
    registrations := (fd, tok, i) :: s.registrations.filter (fun p => p.1 ≠ fd),
    registerCalls := s.registerCalls + 1 }

/-- `Selector::reregister(fd, token, interest)`: replaces the existing
registration for the fd. -/
def selReregister (f : SelFaults) (s : SelectorState) (fd : Int) (tok : Nat)
    (i : InterestK) : Except EvErr SelectorState :=
  if f.reregisterFails then .error .ioErr
  else .ok { s with
    registrations := (fd, tok, i) :: s.registrations.filter (fun p => p.1 ≠ fd),
    reregisterCalls := s.reregisterCalls + 1 }

/-- `Selector::deregister(fd)`. -/
def selDeregister (f : SelFaults) (s : SelectorState) (fd : Int) :
    Except EvErr SelectorState :=
  if f.deregisterFails then .error .ioErr
  else .ok { s with
    registrations := s.registrations.filter (fun p => p.1 ≠ fd),
    deregisterCalls := s.deregisterCalls + 1 }

/-- The process-wide fd registries:
`READABLE_RECORDS`, `READABLE_TOKEN_RECORDS`, `WRITABLE_RECORDS`,
`WRITABLE_TOKEN_RECORDS`. -/
structure Registries where
  readableRecords : List Int
  readableTokenRecords : List (Int × Nat)
  writableRecords : List Int
  writableTokenRecords : List (Int × Nat)
deriving DecidableEq, Repr

/-- Empty registries (initial `Lazy` state). -/
def Registries.empty : Registries := ⟨[], [], [], []⟩

/-- The state an `EventLoop` operation acts on: the selector, the shared
registries, and the loop's `waiting` flag.  The scheduler is kept
external (its hooks are parameters of `EventLoop.wait`). -/
structure LoopState where
  sel : SelectorState
  regs : Registries
  waiting : Bool
deriving DecidableEq, Repr

/-- `EventLoop::add_read_event(fd)`.  The `token` parameter stands for the
value produced by `EventLoop::token()` (derived from the current
coroutine, or 0 outside any coroutine). -/
def EventLoop.add_read_event (f : SelFaults) (token : Nat) (st : LoopState)
    (fd : Int) : LoopState × Except EvErr Unit :=
  if mapContainsKey st.regs.readableTokenRecords fd then (st, .ok ())
  else
    match selRegister f st.sel fd token .readable with
    | .error e => (st, .error e)
    | .ok sel₁ =>
      let st₁ := { st with sel := sel₁ }
      let (rr, fresh) := setInsert st₁.regs.readableRecords fd
      if fresh then
        let (rtr, old) := mapInsert st₁.regs.readableTokenRecords fd token
        let st₂ := { st₁ with regs := { st₁.regs with
          readableRecords := rr, readableTokenRecords := rtr } }
        if old = Option.none then (st₂, .ok ())
        else (st₂, .error .assertFail)
      else ({ st₁ with regs := { st₁.regs with readableRecords := rr } },
        .error .assertFail)

/-- `EventLoop::add_write_event(fd)`. -/
def EventLoop.add_write_event (f : SelFaults) (token : Nat) (st : LoopState)
    (fd : Int) : LoopState × Except EvErr Unit :=
  if mapContainsKey st.regs.writableTokenRecords fd then (st, .ok ())
  else
    match selRegister f st.sel fd token .writable with
    | .error e => (st, .error e)
    | .ok sel₁ =>
      let st₁ := { st with sel := sel₁ }
      let (wr, fresh) := setInsert st₁.regs.writableRecords fd
      if fresh then
        let (wtr, old) := mapInsert st₁.regs.writableTokenRecords fd token
        let st₂ := { st₁ with regs := { st₁.regs with
          writableRecords := wr, writableTokenRecords := wtr } }
        if old = Option.none then (st₂, .ok ())
        else (st₂, .error .assertFail)
      else ({ st₁ with regs := { st₁.regs with writableRecords := wr } },
        .error .assertFail)

/-- `EventLoop::del_event(fd)`: deregister from the selector (propagating
a failure before touching any registry), then remove the fd from all four
registries. -/
def EventLoop.del_event (f : SelFaults) (st : LoopState) (fd : Int) :
    LoopState × Except EvErr Unit :=
  match selDeregister f st.sel fd with
  | .error e => (st, .error e)
  | .ok sel₁ =>
    ({ st with sel := sel₁, regs := {
        readableRecords := (setRemove st.regs.readableRecords fd).1,
        readableTokenRecords := (mapRemove st.regs.readableTokenRecords fd).1,
        writableRecords := (setRemove st.regs.writableRecords fd).1,
        writableTokenRecords := (mapRemove st.regs.writableTokenRecords fd).1 } },
      .ok ())

/-- `EventLoop::del_read_event(fd)`.  Note the source order: in the
both-interests branch, `WRITABLE_TOKEN_RECORDS.remove(&fd)` is evaluated
(and so mutates the registry) before `reregister` runs, so the writable
token entry is consumed even if `reregister` then fails. -/
def EventLoop.del_read_event (f : SelFaults) (st : LoopState) (fd : Int) :
    LoopState × Except EvErr Unit :=
  if setContains st.regs.readableRecords fd then
    if setContains st.regs.writableRecords fd then
      let (wtr, wtok) := mapRemove st.regs.writableTokenRecords fd
      let st₁ := { st with regs := { st.regs with writableTokenRecords := wtr } }
      match selReregister f st₁.sel fd (wtok.getD 0) .writable with
      | .error e => (st₁, .error e)
      | .ok sel₁ =>
        let st₂ := { st₁ with sel := sel₁ }
        let (rr, present) := setRemove st₂.regs.readableRecords fd
        let st₃ := { st₂ with regs := { st₂.regs with readableRecords := rr } }
        if present then (st₃, .ok ()) else (st₃, .error .assertFail)
    else EventLoop.del_event f st fd
  else (st, .ok ())

/-- `EventLoop::del_write_event(fd)`: the symmetric operation. -/
def EventLoop.del_write_event (f : SelFaults) (st : LoopState) (fd : Int) :
    LoopState × Except EvErr Unit :=
  if setContains st.regs.writableRecords fd then
    if setContains st.regs.readableRecords fd then
      let (rtr, rtok) := mapRemove st.regs.readableTokenRecords fd
      let st₁ := { st with regs := { st.regs with readableTokenRecords := rtr } }
      match selReregister f st₁.sel fd (rtok.getD 0) .readable with
      | .error e => (st₁, .error e)
      | .ok sel₁ =>
        let st₂ := { st₁ with sel := sel₁ }
        let (wr, present) := setRemove st₂.regs.writableRecords fd
        let st₃ := { st₂ with regs := { st₂.regs with writableRecords := wr } }
        if present then (st₃, .ok ()) else (st₃, .error .assertFail)
    else EventLoop.del_event f st fd
  else (st, .ok ())

/-- One readiness event as reported by the selector
(`event.fd()`, `event.token()`, `event.is_readable()`,
`event.is_writable()`). -/
structure MioEvent where
  fd : Int
  token : Nat
  isReadable : Bool
  isWritable : Bool
deriving DecidableEq, Repr

/-- Behaviour of the external collaborators during one `wait` call:
`tts t` is the value returned by `scheduler.try_timed_schedule(t)`
(remaining nanoseconds of the budget `t`), and `selectRes` is the outcome
of `selector.select` (the list of ready events, or an I/O error). -/
structure WaitEnv where
  tts : Nat → Nat
  selectRes : Except Unit (List MioEvent)

/-- Log of the external calls made during one `wait` call: the arguments
passed to `scheduler.try_timed_schedule`, the timeouts passed to
`selector.select`, and the tokens passed to
`scheduler.resume_syscall`. -/
structure WaitLog where
  ttsArgs : List Nat
  selectArgs : List (Option Nat)
  resumed : List Nat
deriving DecidableEq, Repr

/-- The per-event registry update in `EventLoop::wait`'s event loop:
if the event is readable, `assert!(READABLE_TOKEN_RECORDS.remove(&fd).is_some())`,
and likewise on the writable side (the readable assert panics before the
writable check runs). -/
def processOneEvent (e : MioEvent) (regs : Registries) :
    Registries × Except EvErr Unit :=
  if e.isReadable then
    let (rtr, old) := mapRemove regs.readableTokenRecords e.fd
    let regs₁ := { regs with readableTokenRecords := rtr }
    if old.isSome then
      if e.isWritable then
        let (wtr, old₂) := mapRemove regs₁.writableTokenRecords e.fd
        let regs₂ := { regs₁ with writableTokenRecords := wtr }
        if old₂.isSome then (regs₂, .ok ()) else (regs₂, .error .assertFail)
      else (regs₁, .ok ())
    else (regs₁, .error .assertFail)
  else if e.isWritable then
    let (wtr, old₂) := mapRemove regs.writableTokenRecords e.fd
    let regs₂ := { regs with writableTokenRecords := wtr }
    if old₂.isSome then (regs₂, .ok ()) else (regs₂, .error .assertFail)
  else (regs, .ok ())

/-- The `for event in events.iter()` loop of `EventLoop::wait`:
`scheduler.resume_syscall(token)` runs first for each event, then the
registry asserts; a panic stops the iteration. -/
def processEvents (evs : List MioEvent) (regs : Registries) :
    Registries × List Nat × Except EvErr Unit :=
  match evs with
  | [] => (regs, [], .ok ())
  | e :: rest =>
    let (regs₁, res) := processOneEvent e regs
    match res with
    | .error err => (regs₁, [e.token], .error err)
    | .ok _ =>
      let (regs₂, toks, res₂) := processEvents rest regs₁
      (regs₂, e.token :: toks, res₂)

/-- `EventLoop::wait(timeout, schedule_before_wait)`.  `timeout` is in
nanoseconds (`Duration` is modelled as its nanosecond count).  Returns
the new state, the log of external calls, and the `io::Result`. -/
def EventLoop.wait (env : WaitEnv) (st : LoopState) (timeout : Option Nat)
    (schedule_before_wait : Bool) : LoopState × WaitLog × Except EvErr Unit :=
  if st.waiting then (st, ⟨[], [], []⟩, .ok ())
  else
    let st₁ := { st with waiting := true }
    let (timeout₁, ttsArgs) :=
      if schedule_before_wait then
        match timeout with
        | some t => (some (env.tts t), [t])
        | none => (none, [])
      else (timeout, [])
    match env.selectRes with
    | .error _ =>
      ({ st₁ with waiting := false }, ⟨ttsArgs, [timeout₁], []⟩, .error .ioErr)
    | .ok events =>
      let st₂ := { st₁ with waiting := false }
      let (regs₁, toks, res) := processEvents events st₂.regs
      ({ st₂ with regs := regs₁ }, ⟨ttsArgs, [timeout₁], toks⟩, res)

/-- `EventLoop::wait_just(timeout)` = `wait(timeout, false)`. -/
def EventLoop.wait_just (env : WaitEnv) (st : LoopState)
    (timeout : Option Nat) : LoopState × WaitLog × Except EvErr Unit :=
  EventLoop.wait env st timeout false

/-- `EventLoop::wait_event(timeout)` = `wait(timeout, true)`. -/
def EventLoop.wait_event (env : WaitEnv) (st : LoopState)
    (timeout : Option Nat) : LoopState × WaitLog × Except EvErr Unit :=
  EventLoop.wait env st timeout true

/-- `usize` modulus. -/
def USIZE : Nat := 2 ^ 64

/-- `INDEX.fetch_add(1, SeqCst)` on a `usize`: returns the previous value
and stores the wrapped successor. -/
def fetchAddIdx (s : Nat) : Nat × Nat :=
  (s, (s + 1) % USIZE)

/-- `EventLoops::next()` on a pool of `n` loops with round-robin counter
`s` (the current value of `INDEX`): returns the index of the chosen loop
and the new value of `INDEX`. -/
def EventLoops.next (n : Nat) (s : Nat) : Nat × Nat :=
  let (index, s₁) := fetchAddIdx s
  let s₂ := if index = USIZE - 1 then 1 else s₁
  (index % n, s₂)

/-- `EventLoops::monitor()`: performs the same `INDEX.fetch_add(1)` (and
overflow reset) as `next()`, but always returns loop 0. -/
def EventLoops.monitor (s : Nat) : Nat × Nat :=
  let (index, s₁) := fetchAddIdx s
  let s₂ := if index = USIZE - 1 then 1 else s₁
  (0, s₂)

/-- Pool lifecycle state: the `EVENT_LOOP_STARTED` atomic and the
`EVENT_LOOP_WORKERS` `OnceCell` (`Option.none` = uninitialised;
`some k` = initialised with `k` spawned worker threads). -/
structure PoolState where
  started : Bool
  workers : Option Nat
deriving DecidableEq, Repr

/-- `EventLoops::start()` on a pool of `n` loops.  The source guards the
worker-spawning block with
`EVENT_LOOP_STARTED.compare_exchange(false, true, ..).is_err()`:
the `compare_exchange` succeeds (and the guard is `false`) exactly when
`started` was `false`; the spawn block therefore runs only when the
exchange FAILED, i.e. when the pool was already started.  On its first
run the `OnceCell` spawns `n - 1` workers (indices `1..n`). -/
def EventLoops.start (n : Nat) (st : PoolState) : PoolState :=
  if st.started = false then
    { st with started := true }
  else
    match st.workers with
    | some _ => st
    | none => { st with workers := some (n - 1) }

/-- `JoinHandle`: the pair `(*const EventLoop, *const c_char)`.  The loop
pointer is modelled as an optional loop identifier (`Option.none` = null)
and the C string as a list of characters. -/
structure JoinHandle where
  eventLoop : Option Nat
  name : List Char
deriving DecidableEq, Repr

/-- `JoinHandle::error()`: the sentinel handle — null loop reference and
empty name. -/
def JoinHandle.error : JoinHandle := ⟨Option.none, []⟩

/-- Modelled from the spec: `open_coroutine_timer::get_timeout_time(dur)`
(the timer crate is an external collaborator, §6: "now() → ns,
get_timeout_time(duration) → deadline_ns — saturating arithmetic").
Saturating `u64` addition of the current time and the duration. -/
def get_timeout_time (now dur : Nat) : Nat :=
  min (now + dur) (USIZE - 1)

/-- The world a join loop interacts with: the current time
(`open_coroutine_timer::now()`) and `Scheduler::get_result(co_name)` for
the handle's name (`Option.none` = no result cell yet; `some p` = a cell
whose `get_result()` payload is `p`, itself an optional value). -/
structure World where
  now : Nat
  result : Option (Option Nat)
deriving DecidableEq, Repr

/-- Outcome of a join: `ok p` models `Ok(p)`, `timedOut` the
`ErrorKind::TimedOut` error, `ioError` an error propagated from
`wait_event`, `diverged` exhaustion of the recursion fuel (the Rust loop
not having terminated within the modelled number of iterations). -/
inductive JoinOutcome where
  | ok (payload : Option Nat)
  | timedOut
  | ioError
  | diverged
deriving DecidableEq, Repr

/-- The `while result.is_none()` loop of `JoinHandle::timeout_at_join`:
each iteration computes
`left_time = min(timeout_time.saturating_sub(now), 10_000_000)`, fails
with TimedOut when it is zero, otherwise calls
`event_loop.wait_event(Duration::from_nanos(left_time))` (modelled by
`step`, which may fail like `wait_event`) and re-polls the result.
Returns the outcome, the final world, and the number of `wait_event`
calls made. -/
def joinLoop (step : Nat → World → Except Unit World) (timeout_time : Nat) :
    Nat → World → JoinOutcome × World × Nat
  | 0, w => (.diverged, w, 0)
  | fuel + 1, w =>
    match w.result with
    | some cell => (.ok cell, w, 0)
    | Option.none =>
      let left := min (timeout_time - w.now) 10000000
      if left = 0 then (.timedOut, w, 0)
      else
        match step left w with
        | .error _ => (.ioError, w, 0)
        | .ok w₁ =>
          let (o, wf, k) := joinLoop step timeout_time fuel w₁
          (o, wf, k + 1)

/-- `JoinHandle::timeout_at_join(timeout_time)`: returns `Ok(None)`
immediately for an empty name; otherwise runs the polling loop. -/
def JoinHandle.timeout_at_join (step : Nat → World → Except Unit World)
    (h : JoinHandle) (timeout_time : Nat) (w : World) (fuel : Nat) :
    JoinOutcome × World × Nat :=
  if h.name.isEmpty then (.ok Option.none, w, 0)
  else joinLoop step timeout_time fuel w

/-- `JoinHandle::timeout_join(dur)` =
`timeout_at_join(get_timeout_time(dur))`. -/
def JoinHandle.timeout_join (step : Nat → World → Except Unit World)
    (h : JoinHandle) (dur : Nat) (w : World) (fuel : Nat) :
    JoinOutcome × World × Nat :=
  JoinHandle.timeout_at_join step h (get_timeout_time w.now dur) w fuel

/-- The `while result.is_none()` loop of `JoinHandle::join`: each
iteration calls `event_loop.wait_event(Duration::from_millis(10))` and
re-polls. -/
def joinLoopInf (step : Nat → World → Except Unit World) :
    Nat → World → JoinOutcome × World × Nat
  | 0, w => (.diverged, w, 0)
  | fuel + 1, w =>
    match w.result with
    | some cell => (.ok cell, w, 0)
    | Option.none =>
      match step 10000000 w with
      | .error _ => (.ioError, w, 0)
      | .ok w₁ =>
        let (o, wf, k) := joinLoopInf step fuel w₁
        (o, wf, k + 1)

/-- `JoinHandle::join()`: returns `Ok(None)` immediately for an empty
name; otherwise pumps the loop in 10 ms slices until a result appears. -/
def JoinHandle.join (step : Nat → World → Except Unit World)
    (h : JoinHandle) (w : World) (fuel : Nat) : JoinOutcome × World × Nat :=
  if h.name.isEmpty then (.ok Option.none, w, 0)
  else joinLoopInf step fuel w

/-! ## Helper lemmas about the registry primitives -/

theorem mapLookup_filter_ne (m : List (Int × Nat)) (k k' : Int) (h : k' ≠ k) :
    mapLookup (m.filter (fun p => p.1 ≠ k)) k' = mapLookup m k' := by
  induction m with
  | nil => rfl
  | cons p rest ih =>
    by_cases hp : p.1 = k
    · simp only [List.filter_cons, hp]
      simp only [decide_not, decide_eq_true_eq] at *
      rw [if_neg (by simp [hp])]
      rw [show mapLookup (p :: rest) k' = if p.1 = k' then some p.2 else mapLookup rest k' from rfl]
      rw [if_neg (by rw [hp]; exact fun hh => h hh.symm)]
      exact ih
    · simp only [List.filter_cons]
      rw [if_pos (by simp [hp])]
      rw [show mapLookup (p :: (rest.filter (fun p => p.1 ≠ k))) k'
            = if p.1 = k' then some p.2 else mapLookup (rest.filter (fun p => p.1 ≠ k)) k' from rfl]
      rw [show mapLookup (p :: rest) k' = if p.1 = k' then some p.2 else mapLookup rest k' from rfl]
      by_cases hk' : p.1 = k'
      · rw [if_pos hk', if_pos hk']
      · rw [if_neg hk', if_neg hk', ih]

theorem mapLookup_filter_self (m : List (Int × Nat)) (k : Int) :
    mapLookup (m.filter (fun p => p.1 ≠ k)) k = Option.none := by
  induction m with
  | nil => rfl
  | cons p rest ih =>
    simp only [List.filter_cons]
    by_cases hp : p.1 = k
    · rw [if_neg (by simp [hp])]; exact ih
    · rw [if_pos (by simp [hp])]
      rw [show mapLookup (p :: (rest.filter (fun p => p.1 ≠ k))) k
            = if p.1 = k then some p.2 else mapLookup (rest.filter (fun p => p.1 ≠ k)) k from rfl]
      rw [if_neg hp]
      exact ih

theorem setContains_eq_mem (s : List Int) (x : Int) :
    setContains s x = decide (x ∈ s) := by
  induction s with
  | nil => rfl
  | cons a t ih => simp [setContains, List.contains_cons, ih]

theorem setContains_filter_self (s : List Int) (x : Int) :
    setContains (s.filter (fun y => y ≠ x)) x = false := by
  rw [setContains_eq_mem]
  simp only [decide_eq_false_iff_not]
  intro hmem
  have := List.of_mem_filter hmem
  simp at this

theorem setContains_filter_ne (s : List Int) (x y : Int) (h : y ≠ x) :
    setContains (s.filter (fun z => z ≠ x)) y = setContains s y := by
  rw [setContains_eq_mem, setContains_eq_mem]
  congr 1
  simp only [eq_iff_iff]
  constructor
  · intro hmem; exact List.mem_of_mem_filter hmem
  · intro hmem; exact List.mem_filter_of_mem hmem (by simp [h])

/-- The `try_timed_schedule` arguments logged by one `wait` call, as a
function of the inputs: empty when the flag was already set, when
scheduling was not requested, or when no timeout was supplied. -/
theorem wait_ttsArgs_eq (env : WaitEnv) (st : LoopState) (t : Option Nat)
    (sbw : Bool) :
    (EventLoop.wait env st t sbw).2.1.ttsArgs
      = if st.waiting then []
        else if sbw then (match t with | some x => [x] | Option.none => [])
        else [] := by
  cases hw : st.waiting <;> cases hs : env.selectRes <;> cases t <;> cases sbw <;>
    simp [EventLoop.wait, hw, hs]

/-- C5: while the loop's `waiting` flag is already set, `EventLoop::wait`
(hence `wait_just` and `wait_event`) returns `Ok(())` immediately, with
the state unchanged and no call made to the scheduler
(`try_timed_schedule`, `resume_syscall`) or the selector (`select`). -/
theorem wait_reentry_returns_ok_untouched (env : WaitEnv) (st : LoopState)
    (timeout : Option Nat) (sbw : Bool) (h : st.waiting = true) :
    EventLoop.wait env st timeout sbw = (st, ⟨[], [], []⟩, .ok ())
    ∧ EventLoop.wait_just env st timeout = (st, ⟨[], [], []⟩, .ok ())
    ∧ EventLoop.wait_event env st timeout = (st, ⟨[], [], []⟩, .ok ()) := by
  refine ⟨?_, ?_, ?_⟩ <;>
    simp [EventLoop.wait, EventLoop.wait_just, EventLoop.wait_event, h]

/-- An empty selector state, for concrete instantiations. -/
def selEmpty : SelectorState := ⟨[], 0, 0, 0⟩

/-- A concrete wait environment: the scheduler consumes nothing and the
selector reports no events. -/
def envId : WaitEnv := ⟨fun t => t, .ok []⟩

/-- A loop state whose `waiting` flag is set. -/
def stWaitingTrue : LoopState := ⟨selEmpty, Registries.empty, true⟩

/-- Witness for C5 at a concrete state with the `waiting` flag set. -/
theorem wait_reentry_returns_ok_untouched_witness :
    stWaitingTrue.waiting = true
    ∧ EventLoop.wait envId stWaitingTrue (some 5) true
        = (stWaitingTrue, ⟨[], [], []⟩, .ok ()) :=
  ⟨rfl,
    (wait_reentry_returns_ok_untouched envId stWaitingTrue (some 5) true rfl).1⟩

/-- C10: with no timeout (`timeout = None`, an infinite wait),
`wait_event` — and `wait` with `schedule_before_wait = true` — never
invokes `scheduler.try_timed_schedule`; conversely the scheduler is
invoked before the selector wait only when scheduling was requested and a
finite timeout was supplied. -/
theorem wait_none_skips_schedule (env : WaitEnv) (st : LoopState) :
    (EventLoop.wait_event env st Option.none).2.1.ttsArgs = []
    ∧ (EventLoop.wait env st Option.none true).2.1.ttsArgs = []
    ∧ ∀ t sbw, (EventLoop.wait env st t sbw).2.1.ttsArgs ≠ [] →
        sbw = true ∧ t ≠ Option.none := by
  refine ⟨?_, ?_, ?_⟩
  · rw [EventLoop.wait_event, wait_ttsArgs_eq]
    cases hw : st.waiting <;> simp
  · rw [wait_ttsArgs_eq]
    cases hw : st.waiting <;> simp
  · intro t sbw hne
    rw [wait_ttsArgs_eq] at hne
    constructor
    · cases hsbw : sbw
      · rw [hsbw] at hne
        cases hw : st.waiting <;> rw [hw] at hne <;> simp at hne
      · rfl
    · cases t with
      | none =>
        cases hw : st.waiting <;> rw [hw] at hne <;> cases sbw <;> simp at hne
      | some x => exact Option.some_ne_none x

/-- A loop state whose `waiting` flag is clear. -/
def stWaitingFalse : LoopState := ⟨selEmpty, Registries.empty, false⟩

/-- Witness for C10: the no-timeout wait makes no scheduling call, and a
concrete finite-timeout wait that does schedule satisfies the converse
implication's hypothesis. -/
theorem wait_none_skips_schedule_witness :
    (EventLoop.wait_event envId stWaitingFalse Option.none).2.1.ttsArgs = []
    ∧ ((EventLoop.wait envId stWaitingFalse (some 7) true).2.1.ttsArgs ≠ []
        → true = true ∧ (some 7 : Option Nat) ≠ Option.none) :=
  ⟨(wait_none_skips_schedule envId stWaitingFalse).1,
    fun hne => (wait_none_skips_schedule envId stWaitingFalse).2.2 (some 7) true hne⟩

/-- C3 (divergence witness): `EventLoops::start` guards the
worker-spawning block with `compare_exchange(false, true, ..).is_err()`.
Evaluated on a fresh pool (`STARTED = false`, workers uninitialised,
4 loops): the exchange succeeds, yet no workers are spawned; a second
call, whose exchange fails because the pool is already started, is the
one that spawns the `4 - 1` workers. -/
theorem start_spawns_workers_only_when_cas_fails :
    EventLoops.start 4 ⟨false, Option.none⟩ = ⟨true, Option.none⟩
    ∧ EventLoops.start 4 ⟨true, Option.none⟩ = ⟨true, some 3⟩ := by
  decide

/-- C7 (counterexample): on a 2-loop pool with `INDEX = 0`,
`EventLoops::monitor()` returns loop 0 but advances `INDEX`, so the
following `next()` dispatches to loop 1, whereas without the `monitor()`
call `next()` would have dispatched to loop 0. -/
theorem monitor_shifts_next_dispatch :
    (EventLoops.monitor 0).1 = 0
    ∧ (EventLoops.next 2 (EventLoops.monitor 0).2).1 = 1
    ∧ (EventLoops.next 2 0).1 = 0 := by
  decide

/-- C7 (amended): `EventLoops::monitor()` always returns event loop 0,
but it performs the same `INDEX.fetch_add(1)` (with the same overflow
reset) as `next()`, so each `monitor()` call advances the round-robin
counter exactly as a `next()` call would. -/
theorem monitor_returns_loop0_and_advances_index (n s : Nat) :
    (EventLoops.monitor s).1 = 0
    ∧ (EventLoops.monitor s).2 = (EventLoops.next n s).2 := by
  simp [EventLoops.monitor, EventLoops.next, fetchAddIdx]

/-- C8: for a handle with an empty name (in particular the sentinel
`JoinHandle::error()`, which also carries a null loop reference),
`timeout_at_join`, `timeout_join` and `join` return `Ok(None)`
immediately — no error, no `wait_event` call (the count is 0), the world
untouched — regardless of the deadline. -/
theorem sentinel_handle_returns_none (step : Nat → World → Except Unit World)
    (h : JoinHandle) (tt dur : Nat) (w : World) (fuel : Nat)
    (hname : h.name = []) :
    JoinHandle.timeout_at_join step h tt w fuel = (.ok Option.none, w, 0)
    ∧ JoinHandle.timeout_join step h dur w fuel = (.ok Option.none, w, 0)
    ∧ JoinHandle.join step h w fuel = (.ok Option.none, w, 0) := by
  refine ⟨?_, ?_, ?_⟩ <;>
    simp [JoinHandle.timeout_at_join, JoinHandle.timeout_join, JoinHandle.join,
      hname]

/-- A wait step that changes nothing, for concrete instantiations. -/
def stepId : Nat → World → Except Unit World := fun _ w => .ok w

/-- Witness for C8 at the sentinel handle itself. -/
theorem sentinel_handle_returns_none_witness :
    JoinHandle.error.name = []
    ∧ JoinHandle.timeout_at_join stepId JoinHandle.error 12 ⟨3, Option.none⟩ 9
        = (.ok Option.none, ⟨3, Option.none⟩, 0) :=
  ⟨rfl,
    (sentinel_handle_returns_none stepId JoinHandle.error 12 34
      ⟨3, Option.none⟩ 9 rfl).1⟩

/-- `setRemove` removes the element: the result no longer contains it. -/
theorem setRemove_fst_not_contains (s : List Int) (x : Int) :
    setContains (setRemove s x).1 x = false :=
  setContains_filter_self s x

/-- `setRemove` keeps every other element's membership unchanged. -/
theorem setRemove_fst_contains_ne (s : List Int) (x y : Int) (h : y ≠ x) :
    setContains (setRemove s x).1 y = setContains s y :=
  setContains_filter_ne s x y h

/-- `mapRemove` removes the key. -/
theorem mapRemove_fst_lookup_self (m : List (Int × Nat)) (k : Int) :
    mapLookup (mapRemove m k).1 k = Option.none :=
  mapLookup_filter_self m k

/-- `mapRemove` keeps every other key's binding unchanged. -/
theorem mapRemove_fst_lookup_ne (m : List (Int × Nat)) (k k' : Int)
    (h : k' ≠ k) : mapLookup (mapRemove m k).1 k' = mapLookup m k' :=
  mapLookup_filter_ne m k k' h

/-- C9: `EventLoop::del_event` deregisters from the selector with `?`
before touching any registry: if `deregister` fails the error is surfaced
and the whole state (all four registries and the selector) is unchanged;
when it succeeds the call returns `Ok(())` and the fd is removed from all
four registries. -/
theorem del_event_atomic_on_failure :
    (∀ f st fd, f.deregisterFails = true →
        (EventLoop.del_event f st fd).2 = .error .ioErr
        ∧ (EventLoop.del_event f st fd).1 = st)
  ∧ (∀ f st fd, f.deregisterFails = false →
        (EventLoop.del_event f st fd).2 = .ok ()
        ∧ setContains (EventLoop.del_event f st fd).1.regs.readableRecords fd
            = false
        ∧ mapContainsKey
            (EventLoop.del_event f st fd).1.regs.readableTokenRecords fd
            = false
        ∧ setContains (EventLoop.del_event f st fd).1.regs.writableRecords fd
            = false
        ∧ mapContainsKey
            (EventLoop.del_event f st fd).1.regs.writableTokenRecords fd
            = false) := by
  constructor
  · intro f st fd hf
    constructor <;> simp [EventLoop.del_event, selDeregister, hf]
  · intro f st fd hf
    refine ⟨?_, ?_, ?_, ?_, ?_⟩ <;>
      simp [EventLoop.del_event, selDeregister, hf, mapContainsKey,
        setRemove_fst_not_contains, mapRemove_fst_lookup_self]

/-- A concrete loop state with fd 7 registered on both sides, for
witnesses. -/
def stBoth7 : LoopState :=
  ⟨⟨[(7, 11, .readable), (7, 22, .writable)], 2, 0, 0⟩,
    ⟨[7], [(7, 11)], [7], [(7, 22)]⟩, false⟩

/-- Witness for C9: a failing deregister leaves the concrete state
untouched; a succeeding one removes fd 7 from the readable records. -/
theorem del_event_atomic_on_failure_witness :
    ((⟨false, false, true⟩ : SelFaults).deregisterFails = true
      ∧ (EventLoop.del_event ⟨false, false, true⟩ stBoth7 7).1 = stBoth7)
    ∧ (SelFaults.none.deregisterFails = false
      ∧ setContains
          (EventLoop.del_event SelFaults.none stBoth7 7).1.regs.readableRecords
          7 = false) :=
  ⟨⟨rfl, (del_event_atomic_on_failure.1 ⟨false, false, true⟩ stBoth7 7 rfl).2⟩,
    ⟨rfl, (del_event_atomic_on_failure.2 SelFaults.none stBoth7 7 rfl).2.1⟩⟩

/-- `add_read_event` is a complete no-op when the fd is already in the
readable token map. -/
theorem add_read_event_mem (f : SelFaults) (tok : Nat) (st : LoopState)
    (fd : Int) (h : mapContainsKey st.regs.readableTokenRecords fd = true) :
    EventLoop.add_read_event f tok st fd = (st, .ok ()) := by
  simp [EventLoop.add_read_event, h]

/-- `add_write_event` is a complete no-op when the fd is already in the
writable token map. -/
theorem add_write_event_mem (f : SelFaults) (tok : Nat) (st : LoopState)
    (fd : Int) (h : mapContainsKey st.regs.writableTokenRecords fd = true) :
    EventLoop.add_write_event f tok st fd = (st, .ok ()) := by
  simp [EventLoop.add_write_event, h]

/-- The explicit result of a fresh, fault-free `add_read_event`: one
selector registration and both read-side registry insertions. -/
theorem add_read_event_fresh (f : SelFaults) (tok : Nat) (st : LoopState)
    (fd : Int) (hreg : f.registerFails = false)
    (hl : mapLookup st.regs.readableTokenRecords fd = Option.none)
    (hc : st.regs.readableRecords.contains fd = false) :
    EventLoop.add_read_event f tok st fd
      = (⟨⟨(fd, tok, .readable) :: st.sel.registrations.filter (fun p => p.1 ≠ fd),
            st.sel.registerCalls + 1, st.sel.reregisterCalls,
            st.sel.deregisterCalls⟩,
          ⟨fd :: st.regs.readableRecords,
            (fd, tok) :: st.regs.readableTokenRecords.filter (fun p => p.1 ≠ fd),
            st.regs.writableRecords, st.regs.writableTokenRecords⟩,
          st.waiting⟩, .ok ()) := by
  have hmem : fd ∉ st.regs.readableRecords := by simpa using hc
  simp [EventLoop.add_read_event, mapContainsKey, hl, selRegister, hreg,
    setInsert, hmem, mapInsert]

/-- The explicit result of a fresh, fault-free `add_write_event`. -/
theorem add_write_event_fresh (f : SelFaults) (tok : Nat) (st : LoopState)
    (fd : Int) (hreg : f.registerFails = false)
    (hl : mapLookup st.regs.writableTokenRecords fd = Option.none)
    (hc : st.regs.writableRecords.contains fd = false) :
    EventLoop.add_write_event f tok st fd
      = (⟨⟨(fd, tok, .writable) :: st.sel.registrations.filter (fun p => p.1 ≠ fd),
            st.sel.registerCalls + 1, st.sel.reregisterCalls,
            st.sel.deregisterCalls⟩,
          ⟨st.regs.readableRecords, st.regs.readableTokenRecords,
            fd :: st.regs.writableRecords,
            (fd, tok) :: st.regs.writableTokenRecords.filter (fun p => p.1 ≠ fd)⟩,
          st.waiting⟩, .ok ()) := by
  have hmem : fd ∉ st.regs.writableRecords := by simpa using hc
  simp [EventLoop.add_write_event, mapContainsKey, hl, selRegister, hreg,
    setInsert, hmem, mapInsert]

/-- C6: `add_read_event` (and symmetrically `add_write_event`) is
idempotent: when the fd is already in the corresponding token map the
call returns `Ok(())` and changes nothing (selector and registries
untouched); starting from an unregistered fd, two successive calls make
exactly one selector `register` call and keep the first-stored token. -/
theorem add_event_idempotent_first_token_wins :
    (∀ f tok st fd, mapContainsKey st.regs.readableTokenRecords fd = true →
        EventLoop.add_read_event f tok st fd = (st, .ok ()))
    ∧ (∀ f tok st fd, mapContainsKey st.regs.writableTokenRecords fd = true →
        EventLoop.add_write_event f tok st fd = (st, .ok ()))
    ∧ (∀ f tok₁ tok₂ st fd, f.registerFails = false →
        mapLookup st.regs.readableTokenRecords fd = Option.none →
        st.regs.readableRecords.contains fd = false →
        (EventLoop.add_read_event f tok₂
            (EventLoop.add_read_event f tok₁ st fd).1 fd).1
          = (EventLoop.add_read_event f tok₁ st fd).1
        ∧ (EventLoop.add_read_event f tok₁ st fd).1.sel.registerCalls
          = st.sel.registerCalls + 1
        ∧ mapLookup (EventLoop.add_read_event f tok₂
            (EventLoop.add_read_event f tok₁ st fd).1 fd).1.regs.readableTokenRecords
            fd = some tok₁)
    ∧ (∀ f tok₁ tok₂ st fd, f.registerFails = false →
        mapLookup st.regs.writableTokenRecords fd = Option.none →
        st.regs.writableRecords.contains fd = false →
        (EventLoop.add_write_event f tok₂
            (EventLoop.add_write_event f tok₁ st fd).1 fd).1
          = (EventLoop.add_write_event f tok₁ st fd).1
        ∧ (EventLoop.add_write_event f tok₁ st fd).1.sel.registerCalls
          = st.sel.registerCalls + 1
        ∧ mapLookup (EventLoop.add_write_event f tok₂
            (EventLoop.add_write_event f tok₁ st fd).1 fd).1.regs.writableTokenRecords
            fd = some tok₁) := by
  refine ⟨add_read_event_mem, add_write_event_mem, ?_, ?_⟩
  · intro f tok₁ tok₂ st fd hreg hl hc
    rw [add_read_event_fresh f tok₁ st fd hreg hl hc]
    have hmem : mapContainsKey
        ((fd, tok₁) :: st.regs.readableTokenRecords.filter (fun p => p.1 ≠ fd))
        fd = true := by
      simp [mapContainsKey, mapLookup]
    refine ⟨?_, rfl, ?_⟩
    · rw [add_read_event_mem f tok₂ _ fd hmem]
    · rw [add_read_event_mem f tok₂ _ fd hmem]
      simp [mapLookup]
  · intro f tok₁ tok₂ st fd hreg hl hc
    rw [add_write_event_fresh f tok₁ st fd hreg hl hc]
    have hmem : mapContainsKey
        ((fd, tok₁) :: st.regs.writableTokenRecords.filter (fun p => p.1 ≠ fd))
        fd = true := by
      simp [mapContainsKey, mapLookup]
    refine ⟨?_, rfl, ?_⟩
    · rw [add_write_event_mem f tok₂ _ fd hmem]
    · rw [add_write_event_mem f tok₂ _ fd hmem]
      simp [mapLookup]

/-- Witness for C6: concretely, a no-op re-add on `stBoth7` and the
two-successive-adds scenario on an empty state with tokens 11 then 22. -/
theorem add_event_idempotent_first_token_wins_witness :
    (mapContainsKey stBoth7.regs.readableTokenRecords 7 = true
      ∧ EventLoop.add_read_event SelFaults.none 99 stBoth7 7
          = (stBoth7, .ok ()))
    ∧ (mapLookup
        (EventLoop.add_read_event SelFaults.none 22
          (EventLoop.add_read_event SelFaults.none 11 stWaitingFalse 7).1
          7).1.regs.readableTokenRecords 7 = some 11
      ∧ (EventLoop.add_read_event SelFaults.none 11
          stWaitingFalse 7).1.sel.registerCalls
          = stWaitingFalse.sel.registerCalls + 1) :=
  ⟨⟨rfl,
      (add_event_idempotent_first_token_wins.1 SelFaults.none 99 stBoth7 7
        rfl)⟩,
    ⟨(add_event_idempotent_first_token_wins.2.2.1 SelFaults.none 11 22
        stWaitingFalse 7 rfl rfl rfl).2.2,
      (add_event_idempotent_first_token_wins.2.2.1 SelFaults.none 11 22
        stWaitingFalse 7 rfl rfl rfl).2.1⟩⟩

/-- Bool-to-Prop bridge for set membership hypotheses. -/
theorem mem_of_setContains (s : List Int) (x : Int)
    (h : setContains s x = true) : x ∈ s := by
  rw [setContains_eq_mem] at h
  exact of_decide_eq_true h

/-- The explicit result of `del_read_event` on a fd carrying both
interests, when `reregister` succeeds: the selector is re-registered
write-only with the token taken out of `WRITABLE_TOKEN_RECORDS`, the fd
leaves `READABLE_RECORDS`, and the read-side token map and
`WRITABLE_RECORDS` are untouched. -/
theorem del_read_event_both (f : SelFaults) (st : LoopState) (fd : Int)
    (hf : f.reregisterFails = false)
    (hr : setContains st.regs.readableRecords fd = true)
    (hw : setContains st.regs.writableRecords fd = true) :
    EventLoop.del_read_event f st fd
      = (⟨⟨(fd, (mapLookup st.regs.writableTokenRecords fd).getD 0, .writable)
            :: st.sel.registrations.filter (fun p => p.1 ≠ fd),
          st.sel.registerCalls, st.sel.reregisterCalls + 1,
          st.sel.deregisterCalls⟩,
         ⟨st.regs.readableRecords.filter (fun y => y ≠ fd),
          st.regs.readableTokenRecords,
          st.regs.writableRecords,
          st.regs.writableTokenRecords.filter (fun p => p.1 ≠ fd)⟩,
         st.waiting⟩, .ok ()) := by
  have hrm : fd ∈ st.regs.readableRecords := mem_of_setContains _ _ hr
  have hwm : fd ∈ st.regs.writableRecords := mem_of_setContains _ _ hw
  simp [EventLoop.del_read_event, hr, hw, hrm, hwm, mapRemove, selReregister,
    hf, setRemove]

/-- The explicit result of `del_write_event` on a fd carrying both
interests, when `reregister` succeeds. -/
theorem del_write_event_both (f : SelFaults) (st : LoopState) (fd : Int)
    (hf : f.reregisterFails = false)
    (hr : setContains st.regs.readableRecords fd = true)
    (hw : setContains st.regs.writableRecords fd = true) :
    EventLoop.del_write_event f st fd
      = (⟨⟨(fd, (mapLookup st.regs.readableTokenRecords fd).getD 0, .readable)
            :: st.sel.registrations.filter (fun p => p.1 ≠ fd),
          st.sel.registerCalls, st.sel.reregisterCalls + 1,
          st.sel.deregisterCalls⟩,
         ⟨st.regs.readableRecords,
          st.regs.readableTokenRecords.filter (fun p => p.1 ≠ fd),
          st.regs.writableRecords.filter (fun y => y ≠ fd),
          st.regs.writableTokenRecords⟩,
         st.waiting⟩, .ok ()) := by
  have hrm : fd ∈ st.regs.readableRecords := mem_of_setContains _ _ hr
  have hwm : fd ∈ st.regs.writableRecords := mem_of_setContains _ _ hw
  simp [EventLoop.del_write_event, hr, hw, hrm, hwm, mapRemove, selReregister,
    hf, setRemove]

/-- C2: for a fd registered for both interests, `del_read_event`
re-registers the selector for the fd with write-only interest using the
stored writable token (so the write token survives in the selector
registration), removes the fd from `READABLE_RECORDS`, keeps it in
`WRITABLE_RECORDS`, and returns `Ok(())`; symmetric for
`del_write_event`. -/
theorem del_one_side_narrows_registration :
    (∀ f st fd wtok, f.reregisterFails = false →
        setContains st.regs.readableRecords fd = true →
        setContains st.regs.writableRecords fd = true →
        mapLookup st.regs.writableTokenRecords fd = some wtok →
        (EventLoop.del_read_event f st fd).2 = .ok ()
        ∧ selLookup (EventLoop.del_read_event f st fd).1.sel fd
            = some (wtok, .writable)
        ∧ setContains
            (EventLoop.del_read_event f st fd).1.regs.readableRecords fd
            = false
        ∧ setContains
            (EventLoop.del_read_event f st fd).1.regs.writableRecords fd
            = true)
    ∧ (∀ f st fd rtok, f.reregisterFails = false →
        setContains st.regs.readableRecords fd = true →
        setContains st.regs.writableRecords fd = true →
        mapLookup st.regs.readableTokenRecords fd = some rtok →
        (EventLoop.del_write_event f st fd).2 = .ok ()
        ∧ selLookup (EventLoop.del_write_event f st fd).1.sel fd
            = some (rtok, .readable)
        ∧ setContains
            (EventLoop.del_write_event f st fd).1.regs.writableRecords fd
            = false
        ∧ setContains
            (EventLoop.del_write_event f st fd).1.regs.readableRecords fd
            = true) := by
  constructor
  · intro f st fd wtok hf hr hw hlw
    rw [del_read_event_both f st fd hf hr hw]
    refine ⟨rfl, ?_, ?_, hw⟩
    · simp [selLookup, hlw]
    · exact setContains_filter_self st.regs.readableRecords fd
  · intro f st fd rtok hf hr hw hlr
    rw [del_write_event_both f st fd hf hr hw]
    refine ⟨rfl, ?_, ?_, hr⟩
    · simp [selLookup, hlr]
    · exact setContains_filter_self st.regs.writableRecords fd

/-- Witness for C2 on the concrete both-interest state `stBoth7`. -/
theorem del_one_side_narrows_registration_witness :
    (EventLoop.del_read_event SelFaults.none stBoth7 7).2 = .ok ()
    ∧ selLookup (EventLoop.del_read_event SelFaults.none stBoth7 7).1.sel 7
        = some (22, .writable)
    ∧ setContains
        (EventLoop.del_read_event SelFaults.none stBoth7 7).1.regs.readableRecords
        7 = false
    ∧ setContains
        (EventLoop.del_read_event SelFaults.none stBoth7 7).1.regs.writableRecords
        7 = true :=
  del_one_side_narrows_registration.1 SelFaults.none stBoth7 7 22
    rfl rfl rfl rfl

/-- The state after `add_read_event(7)` with token 11,
`add_write_event(7)` with token 22, and `del_read_event(7)`, starting
from the empty state. -/
def narrowedState : LoopState :=
  (EventLoop.del_read_event SelFaults.none
    (EventLoop.add_write_event SelFaults.none 22
      (EventLoop.add_read_event SelFaults.none 11 stWaitingFalse 7).1 7).1
    7).1

/-- C1 (counterexample): at the quiescent point after the completed call
sequence `add_read_event(7); add_write_event(7); del_read_event(7)`,
fd 7 is absent from `READABLE_RECORDS` yet still a key of
`READABLE_TOKEN_RECORDS`, and present in `WRITABLE_RECORDS` yet absent
from `WRITABLE_TOKEN_RECORDS`: both directions of the claimed iff fail. -/
theorem narrowing_desyncs_registries :
    setContains narrowedState.regs.readableRecords 7 = false
    ∧ mapContainsKey narrowedState.regs.readableTokenRecords 7 = true
    ∧ setContains narrowedState.regs.writableRecords 7 = true
    ∧ mapContainsKey narrowedState.regs.writableTokenRecords 7 = false := by
  decide

/-- The claimed registry invariant: a fd is in `READABLE_RECORDS` iff it
is a key of `READABLE_TOKEN_RECORDS`, and same on the write side. -/
def RegsSynced (r : Registries) : Prop :=
  ∀ fd : Int,
    setContains r.readableRecords fd = mapContainsKey r.readableTokenRecords fd
    ∧ setContains r.writableRecords fd = mapContainsKey r.writableTokenRecords fd

/-- `add_read_event` preserves the registry invariant (whatever the
selector outcome). -/
theorem add_read_event_preserves_sync (f : SelFaults) (tok : Nat)
    (st : LoopState) (fd : Int) (h : RegsSynced st.regs) :
    RegsSynced (EventLoop.add_read_event f tok st fd).1.regs := by
  by_cases hmem : mapContainsKey st.regs.readableTokenRecords fd = true
  · rw [add_read_event_mem f tok st fd hmem]
    exact h
  · have hl : mapLookup st.regs.readableTokenRecords fd = Option.none := by
      cases hml : mapLookup st.regs.readableTokenRecords fd with
      | none => rfl
      | some v => exact absurd (by simp [mapContainsKey, hml]) hmem
    have hcf : setContains st.regs.readableRecords fd = false := by
      rw [(h fd).1, mapContainsKey, hl]
      rfl
    have hc : st.regs.readableRecords.contains fd = false := hcf
    cases hreg : f.registerFails with
    | true =>
      have heq : (EventLoop.add_read_event f tok st fd).1 = st := by
        simp [EventLoop.add_read_event, mapContainsKey, hl, selRegister, hreg]
      rw [heq]
      exact h
    | false =>
      rw [add_read_event_fresh f tok st fd hreg hl hc]
      intro fd'
      refine ⟨?_, (h fd').2⟩
      by_cases hfd : fd' = fd
      · subst hfd
        rw [setContains_eq_mem]
        simp [mapContainsKey, mapLookup]
      · rw [setContains_eq_mem]
        have hstep : mapLookup
            ((fd, tok) :: st.regs.readableTokenRecords.filter
              (fun p => p.1 ≠ fd)) fd'
            = mapLookup st.regs.readableTokenRecords fd' := by
          rw [show mapLookup ((fd, tok) :: st.regs.readableTokenRecords.filter
                (fun p => p.1 ≠ fd)) fd'
              = if fd = fd' then some tok
                else mapLookup (st.regs.readableTokenRecords.filter
                  (fun p => p.1 ≠ fd)) fd' from rfl]
          rw [if_neg (fun hh => hfd hh.symm)]
          exact mapLookup_filter_ne _ _ _ hfd
        rw [mapContainsKey, hstep, ← mapContainsKey, ← (h fd').1,
          setContains_eq_mem]
        simp [hfd]

/-- `add_write_event` preserves the registry invariant. -/
theorem add_write_event_preserves_sync (f : SelFaults) (tok : Nat)
    (st : LoopState) (fd : Int) (h : RegsSynced st.regs) :
    RegsSynced (EventLoop.add_write_event f tok st fd).1.regs := by
  by_cases hmem : mapContainsKey st.regs.writableTokenRecords fd = true
  · rw [add_write_event_mem f tok st fd hmem]
    exact h
  · have hl : mapLookup st.regs.writableTokenRecords fd = Option.none := by
      cases hml : mapLookup st.regs.writableTokenRecords fd with
      | none => rfl
      | some v => exact absurd (by simp [mapContainsKey, hml]) hmem
    have hcf : setContains st.regs.writableRecords fd = false := by
      rw [(h fd).2, mapContainsKey, hl]
      rfl
    have hc : st.regs.writableRecords.contains fd = false := hcf
    cases hreg : f.registerFails with
    | true =>
      have heq : (EventLoop.add_write_event f tok st fd).1 = st := by
        simp [EventLoop.add_write_event, mapContainsKey, hl, selRegister, hreg]
      rw [heq]
      exact h
    | false =>
      rw [add_write_event_fresh f tok st fd hreg hl hc]
      intro fd'
      refine ⟨(h fd').1, ?_⟩
      by_cases hfd : fd' = fd
      · subst hfd
        rw [setContains_eq_mem]
        simp [mapContainsKey, mapLookup]
      · rw [setContains_eq_mem]
        have hstep : mapLookup
            ((fd, tok) :: st.regs.writableTokenRecords.filter
              (fun p => p.1 ≠ fd)) fd'
            = mapLookup st.regs.writableTokenRecords fd' := by
          rw [show mapLookup ((fd, tok) :: st.regs.writableTokenRecords.filter
                (fun p => p.1 ≠ fd)) fd'
              = if fd = fd' then some tok
                else mapLookup (st.regs.writableTokenRecords.filter
                  (fun p => p.1 ≠ fd)) fd' from rfl]
          rw [if_neg (fun hh => hfd hh.symm)]
          exact mapLookup_filter_ne _ _ _ hfd
        rw [mapContainsKey, hstep, ← mapContainsKey, ← (h fd').2,
          setContains_eq_mem]
        simp [hfd]

/-- `del_event` preserves the registry invariant. -/
theorem del_event_preserves_sync (f : SelFaults) (st : LoopState) (fd : Int)
    (h : RegsSynced st.regs) :
    RegsSynced (EventLoop.del_event f st fd).1.regs := by
  cases hreg : f.deregisterFails with
  | true =>
    have heq : (EventLoop.del_event f st fd).1 = st := by
      simp [EventLoop.del_event, selDeregister, hreg]
    rw [heq]
    exact h
  | false =>
    have heq : (EventLoop.del_event f st fd).1.regs
        = ⟨(setRemove st.regs.readableRecords fd).1,
           (mapRemove st.regs.readableTokenRecords fd).1,
           (setRemove st.regs.writableRecords fd).1,
           (mapRemove st.regs.writableTokenRecords fd).1⟩ := by
      simp [EventLoop.del_event, selDeregister, hreg]
    rw [heq]
    intro fd'
    by_cases hfd : fd' = fd
    · subst hfd
      refine ⟨?_, ?_⟩ <;>
        rw [setRemove_fst_not_contains, mapContainsKey,
          mapRemove_fst_lookup_self] <;> rfl
    · refine ⟨?_, ?_⟩
      · rw [setRemove_fst_contains_ne _ _ _ hfd, mapContainsKey,
          mapRemove_fst_lookup_ne _ _ _ hfd, ← mapContainsKey]
        exact (h fd').1
      · rw [setRemove_fst_contains_ne _ _ _ hfd, mapContainsKey,
          mapRemove_fst_lookup_ne _ _ _ hfd, ← mapContainsKey]
        exact (h fd').2

/-- C1 (amended): the records/token-records iff invariant is preserved by
completed `add_read_event`, `add_write_event` and `del_event` calls — but
not by the narrowing deletions or by event consumption in `wait`, which
desynchronise the two sides. -/
theorem add_del_event_preserve_sync (f : SelFaults) (tok : Nat)
    (st : LoopState) (fd : Int) (h : RegsSynced st.regs) :
    RegsSynced (EventLoop.add_read_event f tok st fd).1.regs
    ∧ RegsSynced (EventLoop.add_write_event f tok st fd).1.regs
    ∧ RegsSynced (EventLoop.del_event f st fd).1.regs :=
  ⟨add_read_event_preserves_sync f tok st fd h,
    add_write_event_preserves_sync f tok st fd h,
    del_event_preserves_sync f st fd h⟩

/-- Witness for the amended C1 at the empty state. -/
theorem add_del_event_preserve_sync_witness :
    RegsSynced stWaitingFalse.regs
    ∧ RegsSynced
        (EventLoop.add_read_event SelFaults.none 11 stWaitingFalse 7).1.regs :=
  ⟨fun _ => ⟨rfl, rfl⟩,
    (add_del_event_preserve_sync SelFaults.none 11 stWaitingFalse 7
      (fun _ => ⟨rfl, rfl⟩)).1⟩

/-- If the polling loop returns TimedOut, the world it stops in has no
recorded result and an exhausted budget: `TimedOut` arises exactly at a
zero value of `min(timeout_time - now, 10ms)` with no result present. -/
theorem joinLoop_timedOut_world (step : Nat → World → Except Unit World)
    (tt : Nat) :
    ∀ fuel w wf k, joinLoop step tt fuel w = (.timedOut, wf, k) →
      wf.result = Option.none ∧ min (tt - wf.now) 10000000 = 0 := by
  intro fuel
  induction fuel with
  | zero =>
    intro w wf k h
    simp [joinLoop] at h
  | succ n ih =>
    intro w wf k h
    simp only [joinLoop] at h
    split at h
    · simp at h
    · rename_i heq
      split at h
      · rename_i hzero
        simp only [Prod.mk.injEq] at h
        obtain ⟨-, hwf, -⟩ := h
        subst hwf
        exact ⟨heq, hzero⟩
      · rename_i hzero
        split at h
        · simp at h
        · rename_i w₁ hstep
          simp only [Prod.mk.injEq] at h
          obtain ⟨h1, h2, h3⟩ := h
          refine ih w₁ wf (joinLoop step tt n w₁).2.2 ?_
          calc joinLoop step tt n w₁
              = ((joinLoop step tt n w₁).1, (joinLoop step tt n w₁).2.1,
                  (joinLoop step tt n w₁).2.2) := rfl
            _ = (.timedOut, wf, (joinLoop step tt n w₁).2.2) := by
                rw [h1, h2]

/-- A nonempty handle name makes `isEmpty` false. -/
theorem name_isEmpty_false (h : JoinHandle) (hname : h.name ≠ []) :
    h.name.isEmpty = false := by
  cases hn : h.name with
  | nil => exact absurd hn hname
  | cons a l => rfl

/-- With no result recorded and the per-iteration budget
`min(timeout_time - now, 10ms)` already zero, `timeout_at_join` fails
with TimedOut at once, making no `wait_event` call. -/
theorem timeout_at_join_timedOut_of_budget_zero
    (step : Nat → World → Except Unit World) (h : JoinHandle) (tt : Nat)
    (w : World) (fuel : Nat) (hname : h.name ≠ [])
    (hres : w.result = Option.none)
    (hzero : min (tt - w.now) 10000000 = 0) :
    JoinHandle.timeout_at_join step h tt w (fuel + 1) = (.timedOut, w, 0) := by
  rw [JoinHandle.timeout_at_join,
    if_neg (by simp [name_isEmpty_false h hname])]
  simp [joinLoop, hres, hzero]

/-- With a result already recorded, `timeout_at_join` returns its payload
immediately, whatever the deadline. -/
theorem timeout_at_join_ok_of_result
    (step : Nat → World → Except Unit World) (h : JoinHandle) (tt : Nat)
    (w : World) (fuel : Nat) (p : Option Nat) (hname : h.name ≠ [])
    (hres : w.result = some p) :
    JoinHandle.timeout_at_join step h tt w (fuel + 1) = (.ok p, w, 0) := by
  rw [JoinHandle.timeout_at_join,
    if_neg (by simp [name_isEmpty_false h hname])]
  simp [joinLoop, hres]

/-- C4: `timeout_at_join` (and `timeout_join`) returns TimedOut exactly
when the remaining budget `min(deadline - now, 10 ms)` reaches zero while
no result is recorded: (i) a zero budget with no result fails TimedOut at
once; (ii) a recorded result is returned whatever the deadline — so a
re-join after a timeout succeeds once the result exists; (iii) whenever
TimedOut is returned, the final world had no result and a zero remaining
budget; (iv) in particular `timeout_join(0)` with no recorded result
returns TimedOut. -/
theorem timeout_join_deadline_behavior :
    (∀ (step : Nat → World → Except Unit World) (h : JoinHandle)
        (tt : Nat) (w : World) (fuel : Nat), h.name ≠ [] →
        w.result = Option.none → min (tt - w.now) 10000000 = 0 →
        JoinHandle.timeout_at_join step h tt w (fuel + 1)
          = (.timedOut, w, 0))
    ∧ (∀ (step : Nat → World → Except Unit World) (h : JoinHandle)
        (tt : Nat) (w : World) (fuel : Nat) (p : Option Nat), h.name ≠ [] →
        w.result = some p →
        JoinHandle.timeout_at_join step h tt w (fuel + 1) = (.ok p, w, 0))
    ∧ (∀ (step : Nat → World → Except Unit World) (h : JoinHandle)
        (tt : Nat) (w wf : World) (fuel k : Nat),
        JoinHandle.timeout_at_join step h tt w fuel = (.timedOut, wf, k) →
        wf.result = Option.none ∧ min (tt - wf.now) 10000000 = 0)
    ∧ (∀ (step : Nat → World → Except Unit World) (h : JoinHandle)
        (w : World) (fuel : Nat), h.name ≠ [] →
        w.result = Option.none →
        JoinHandle.timeout_join step h 0 w (fuel + 1)
          = (.timedOut, w, 0)) := by
  refine ⟨timeout_at_join_timedOut_of_budget_zero,
    timeout_at_join_ok_of_result, ?_, ?_⟩
  · intro step h tt w wf fuel k heq
    rw [JoinHandle.timeout_at_join] at heq
    split at heq
    · simp at heq
    · exact joinLoop_timedOut_world step tt fuel w wf k heq
  · intro step h w fuel hname hres
    rw [JoinHandle.timeout_join]
    refine timeout_at_join_timedOut_of_budget_zero step h _ w fuel hname hres
      ?_
    have hle : get_timeout_time w.now 0 ≤ w.now := by
      rw [get_timeout_time]
      exact le_trans (min_le_left _ _) (by omega)
    rw [Nat.sub_eq_zero_of_le hle]
    simp

/-- Witness for C4: a zero-budget timeout, an immediate payload return,
the TimedOut inversion, and a `timeout_join(0)` timeout, all at concrete
inputs. -/
theorem timeout_join_deadline_behavior_witness :
    JoinHandle.timeout_at_join stepId ⟨some 0, ['a']⟩ 50 ⟨50, Option.none⟩ 1
      = (.timedOut, ⟨50, Option.none⟩, 0)
    ∧ JoinHandle.timeout_at_join stepId ⟨some 0, ['a']⟩ 1000
        ⟨60, some (some 5)⟩ 1 = (.ok (some 5), ⟨60, some (some 5)⟩, 0)
    ∧ ((⟨50, Option.none⟩ : World).result = Option.none
        ∧ min (50 - (⟨50, Option.none⟩ : World).now) 10000000 = 0)
    ∧ JoinHandle.timeout_join stepId ⟨some 0, ['a']⟩ 0 ⟨50, Option.none⟩ 1
      = (.timedOut, ⟨50, Option.none⟩, 0) :=
  ⟨timeout_join_deadline_behavior.1 stepId ⟨some 0, ['a']⟩ 50
      ⟨50, Option.none⟩ 0 (by decide) rfl (by decide),
    timeout_join_deadline_behavior.2.1 stepId ⟨some 0, ['a']⟩ 1000
      ⟨60, some (some 5)⟩ 0 (some 5) (by decide) rfl,
    timeout_join_deadline_behavior.2.2.1 stepId ⟨some 0, ['a']⟩ 50
      ⟨50, Option.none⟩ ⟨50, Option.none⟩ 1 0 (by decide),
    timeout_join_deadline_behavior.2.2.2 stepId ⟨some 0, ['a']⟩
      ⟨50, Option.none⟩ 0 (by decide) rfl⟩
